import Mathlib

/-!
Verification of the point-parsing and rotation core of `jiometry-cli`
(`src/assets/ts/rotate.ts`), as a shallow embedding in Lean 4.

Strings are modelled as `List Char` (with `String` wrappers keeping the
source names), JavaScript numbers produced by `parseFloat` as the type
`JsFloat` (NaN, signed infinity, or an exact rational value), and the
real-valued rotation as a function over `ℝ` with `Real.cos` / `Real.sin`
standing for `Math.cos` / `Math.sin`.  Errors thrown by the TypeScript
code become `Except String` results carrying the exact message text.
-/

/-- The characters removed by JavaScript `String.prototype.trim`
(restricted to the ASCII whitespace that can occur here). -/
def isJsWhitespace (c : Char) : Bool :=
  c = ' ' || c = '\t' || c = '\n' || c = '\r' || c.toNat = 11 || c.toNat = 12

/-- JavaScript `str.trim()`: remove whitespace at both ends. -/
def jsTrim (l : List Char) : List Char :=
  ((l.dropWhile isJsWhitespace).reverse.dropWhile isJsWhitespace).reverse

/-- JavaScript `str.slice(1, -1)`: drop the first and the last character
(empty result on strings of length at most one). -/
def slice1m1 (l : List Char) : List Char :=
  (l.drop 1).dropLast

/-- JavaScript `str.startsWith(c)` for a one-character argument. -/
def startsWithChar (l : List Char) (c : Char) : Bool :=
  match l with
  | [] => false
  | d :: _ => d = c

/-- JavaScript `str.split(",")`: one part per comma, empty parts kept,
`""` splitting to `[""]`. -/
def splitComma : List Char → List (List Char)
  | [] => [[]]
  | c :: rest =>
    if c = ',' then [] :: splitComma rest
    else
      match splitComma rest with
      | [] => [[c]]
      | p :: ps => (c :: p) :: ps

/-- The value of a JavaScript number as produced by `parseFloat`:
`NaN`, a signed infinity (`neg = true` for `-Infinity`), or a finite
value, carried exactly as a rational. -/
inductive JsFloat where
  | nan : JsFloat
  | inf : Bool → JsFloat
  | fin : ℚ → JsFloat
deriving DecidableEq

deriving instance DecidableEq for Except

/-- JavaScript `isNaN` on a number. -/
def JsFloat.isNaN : JsFloat → Bool
  | .nan => true
  | _ => false

/-- `Number.isFinite`: true exactly on finite values. -/
def JsFloat.isFinite : JsFloat → Bool
  | .fin _ => true
  | _ => false

/-- Numeric value of a digit string read in base 10. -/
def natOfDigits (l : List Char) : ℕ :=
  l.foldl (fun a c => 10 * a + (c.toNat - 48)) 0

/-- Signed exponent digits of a `parseFloat` exponent part (`0` when no
digits follow, matching `parseFloat` leaving an empty exponent unused). -/
def expDigits (l : List Char) : ℤ :=
  match l with
  | '+' :: r => (natOfDigits (r.takeWhile Char.isDigit) : ℤ)
  | '-' :: r => -(natOfDigits (r.takeWhile Char.isDigit) : ℤ)
  | r => (natOfDigits (r.takeWhile Char.isDigit) : ℤ)

/-- Exponent contributed by a trailing `e`/`E` exponent part, `0` if the
remainder does not start one. -/
def expPart (l : List Char) : ℤ :=
  match l with
  | 'e' :: r => expDigits r
  | 'E' :: r => expDigits r
  | _ => 0

/-- JavaScript `parseFloat` on a character list: skip leading whitespace,
read an optional sign, accept the literal `Infinity`, else read the
longest decimal-literal prefix (`digits[.digits][exponent]` or
`.digits[exponent]`); `NaN` when no digits are found, trailing garbage
ignored. -/
def parseFloatL (l0 : List Char) : JsFloat :=
  let l1 := l0.dropWhile isJsWhitespace
  let neg : Bool :=
    match l1 with
    | '-' :: _ => true
    | _ => false
  let l2 : List Char :=
    match l1 with
    | '-' :: r => r
    | '+' :: r => r
    | _ => l1
  if "Infinity".data.isPrefixOf l2 then JsFloat.inf neg
  else
    let ip := l2.takeWhile Char.isDigit
    let r1 := l2.dropWhile Char.isDigit
    let fp : List Char :=
      match r1 with
      | '.' :: r => r.takeWhile Char.isDigit
      | _ => []
    let r2 : List Char :=
      match r1 with
      | '.' :: r => r.dropWhile Char.isDigit
      | _ => r1
    if ip.isEmpty && fp.isEmpty then JsFloat.nan
    else
      let mant : ℕ := natOfDigits ip * 10 ^ fp.length + natOfDigits fp
      let e : ℤ := expPart r2
      let num : ℕ := if 0 ≤ e then mant * 10 ^ e.toNat else mant
      let den : ℕ := if 0 ≤ e then 10 ^ fp.length else 10 ^ fp.length * 10 ^ (-e).toNat
      JsFloat.fin (mkRat (if neg then -(num : ℤ) else (num : ℤ)) den)

/-- `parseFloat` on a string. -/
def parseFloat (s : String) : JsFloat :=
  parseFloatL s.data

/-- `parsePoint` from `rotate.ts` on a character list: remove the first
and last character, trim, split on commas, trim each part, require
exactly two parts, parse both with `parseFloat`, reject `NaN`. -/
def parsePointL (l : List Char) : Option (JsFloat × JsFloat) :=
  match (splitComma (jsTrim (slice1m1 l))).map jsTrim with
  | [p1, p2] =>
    if (parseFloatL p1).isNaN || (parseFloatL p2).isNaN then none
    else some (parseFloatL p1, parseFloatL p2)
  | _ => none

/-- `parsePoint` from `rotate.ts`: `"(50,96)"` to `(50, 96)`, `none` when
invalid. -/
def parsePoint (s : String) : Option (JsFloat × JsFloat) :=
  parsePointL s.data

/-- One step of the global regex scan `/\([^)]+\)/g`, with explicit fuel
(the fuel is always instantiated with the length of the list, which
bounds the recursion): at each start position try to match `(`, one or
more non-`)` characters, then `)`; on success emit the match and resume
after it, otherwise advance one character. -/
def scanAux : ℕ → List Char → List (List Char)
  | 0, _ => []
  | _ + 1, [] => []
  | fuel + 1, c :: rest =>
    if c = '(' then
      let body := rest.takeWhile (fun d => d ≠ ')')
      let rest' := rest.dropWhile (fun d => d ≠ ')')
      match rest' with
      | ')' :: tail =>
        if body.isEmpty then scanAux fuel rest
        else ('(' :: (body ++ [')'])) :: scanAux fuel tail
      | _ => scanAux fuel rest
    else scanAux fuel rest

/-- `inner.match(/\([^)]+\)/g) || []`: all non-overlapping matches of a
parenthesis-delimited group, in left-to-right scan order. -/
def scanPoints (l : List Char) : List (List Char) :=
  scanAux l.length l

/-- The `points` list accumulated by `parsePoints` on the (already
trimmed) input: bracketed form scans the interior and keeps the
candidates `parsePoint` accepts; parenthesis form parses the whole
string as one point; anything else collects nothing. -/
def collectPointsL (t : List Char) : List (JsFloat × JsFloat) :=
  if startsWithChar t '[' then
    (scanPoints (jsTrim (slice1m1 t))).filterMap parsePointL
  else if startsWithChar t '(' then
    match parsePointL t with
    | some p => [p]
    | none => []
  else []

/-- `parsePoints` from `rotate.ts`: trim, collect points, and throw the
exact `Invalid points format` message (with the trimmed input embedded)
when none were collected. -/
def parsePoints (s : String) : Except String (List (JsFloat × JsFloat)) :=
  if (collectPointsL (jsTrim s.data)).isEmpty then
    Except.error ("Invalid points format: " ++ String.mk (jsTrim s.data) ++
      ". Use \"(x,y)\" or \"[(x,y) (x,y)]\".")
  else Except.ok (collectPointsL (jsTrim s.data))

/-- `parseCenter` from `rotate.ts`: if the string as received starts with
`(` and `parsePoint` accepts it, return the point; otherwise throw the
exact `Invalid center format` message with the original (untrimmed)
input embedded. -/
def parseCenter (s : String) : Except String (JsFloat × JsFloat) :=
  if startsWithChar s.data '(' then
    match parsePointL s.data with
    | some p => Except.ok p
    | none =>
      Except.error ("Invalid center format: " ++ s ++ ". Use \"(cx,cy)\" or pass separate cx cy.")
  else
    Except.error ("Invalid center format: " ++ s ++ ". Use \"(cx,cy)\" or pass separate cx cy.")

/-- `rotate` from `rotate.ts`, over the reals (`Math.cos` / `Math.sin`
become `Real.cos` / `Real.sin`). -/
noncomputable def rotate (x y angle cx cy : ℝ) : ℝ × ℝ :=
  let radians := angle * Real.pi / 180
  let c := Real.cos radians
  let s := Real.sin radians
  (c * (x - cx) - s * (y - cy) + cx, s * (x - cx) + c * (y - cy) + cy)

/-! ## Helper lemmas -/

/-- Unfolding `rotate` at a right angle. -/
theorem rotate_ninety : rotate 1 0 90 0 0 = (0, 1) := by
  have h : (90 : ℝ) * Real.pi / 180 = Real.pi / 2 := by ring
  simp only [rotate, h, Real.cos_pi_div_two, Real.sin_pi_div_two]
  norm_num

/-- Unfolding `rotate` at a half turn. -/
theorem rotate_half_turn : rotate 1 0 180 0 0 = (-1, 0) := by
  have h : (180 : ℝ) * Real.pi / 180 = Real.pi := by ring
  simp only [rotate, h, Real.cos_pi, Real.sin_pi]
  norm_num

/-- Unfolding `rotate` at a negative right angle. -/
theorem rotate_neg_ninety : rotate 1 0 (-90) 0 0 = (0, -1) := by
  have h : (-90 : ℝ) * Real.pi / 180 = -(Real.pi / 2) := by ring
  simp only [rotate, h, Real.cos_neg, Real.sin_neg, Real.cos_pi_div_two,
    Real.sin_pi_div_two]
  norm_num

/-- Unfolding `parsePointL` when the interior splits into exactly two
parts. -/
theorem parsePointL_two (l p1 p2 : List Char)
    (hm : (splitComma (jsTrim (slice1m1 l))).map jsTrim = [p1, p2]) :
    parsePointL l =
      if (parseFloatL p1).isNaN || (parseFloatL p2).isNaN then none
      else some (parseFloatL p1, parseFloatL p2) := by
  unfold parsePointL
  rw [hm]

/-- Unfolding `parsePointL` when the interior does not split into
exactly two parts. -/
theorem parsePointL_not_two (l : List Char)
    (hm : ((splitComma (jsTrim (slice1m1 l))).map jsTrim).length ≠ 2) :
    parsePointL l = none := by
  unfold parsePointL
  rcases hm2 : (splitComma (jsTrim (slice1m1 l))).map jsTrim with _ | ⟨a, _ | ⟨b, _ | ⟨c, r⟩⟩⟩
  · rfl
  · rfl
  · rw [hm2] at hm
    simp at hm
  · rfl

/-- A point accepted by the inner parser never carries a `NaN`
coordinate: `parsePoint` rejects any pair in which either `parseFloat`
result is `NaN`. -/
theorem parsePointL_not_nan (l : List Char) (p : JsFloat × JsFloat)
    (h : parsePointL l = some p) :
    p.1.isNaN = false ∧ p.2.isNaN = false := by
  by_cases h2 : ((splitComma (jsTrim (slice1m1 l))).map jsTrim).length = 2
  · rcases hm : (splitComma (jsTrim (slice1m1 l))).map jsTrim with _ | ⟨p1, _ | ⟨p2, _ | ⟨p3, r⟩⟩⟩
    · rw [hm] at h2
      simp at h2
    · rw [hm] at h2
      simp at h2
    · rw [parsePointL_two l p1 p2 hm] at h
      split at h
      · exact absurd h (by simp)
      · rename_i hcond
        obtain rfl := Option.some.inj h
        simpa only [Bool.or_eq_true, not_or, Bool.not_eq_true] using hcond
    · rw [hm] at h2
      simp at h2
  · rw [parsePointL_not_two l h2] at h
    exact absurd h (by simp)

/-- Every point collected by `parsePoints` comes from a successful run
of the inner parser on some substring. -/
theorem collectPointsL_mem (t : List Char) (p : JsFloat × JsFloat)
    (h : p ∈ collectPointsL t) : ∃ l, parsePointL l = some p := by
  unfold collectPointsL at h
  split at h
  · obtain ⟨m, _, hp⟩ := List.mem_filterMap.mp h
    exact ⟨m, hp⟩
  · split at h
    · rcases hq : parsePointL t with _ | q
      · rw [hq] at h
        exact absurd h (by simp)
      · rw [hq] at h
        obtain rfl : p = q := by simpa using h
        exact ⟨t, hq⟩
    · exact absurd h (by simp)

/-- A successful `parsePoints` run returns exactly the collected points,
and only succeeds when at least one point was collected. -/
theorem parsePoints_ok_eq (s : String) (ps : List (JsFloat × JsFloat))
    (h : parsePoints s = Except.ok ps) :
    ps = collectPointsL (jsTrim s.data) ∧ ps ≠ [] := by
  unfold parsePoints at h
  split at h
  · exact absurd h (by simp)
  · rename_i hne
    obtain rfl := Except.ok.inj h
    refine ⟨rfl, ?_⟩
    intro hnil
    rw [hnil] at hne
    exact hne rfl

/-- A successful `parseCenter` run returns a point accepted by the
inner parser on the original string. -/
theorem parseCenter_ok_eq (s : String) (p : JsFloat × JsFloat)
    (h : parseCenter s = Except.ok p) : parsePointL s.data = some p := by
  unfold parseCenter at h
  split at h
  · rcases hq : parsePointL s.data with _ | q
    · rw [hq] at h
      exact absurd h (by simp)
    · rw [hq] at h
      obtain rfl := Except.ok.inj h
      exact rfl
  · exact absurd h (by simp)

/-! ## Claim theorems -/

/-- C1: for every finite input, `rotate(x, y, angle, cx, cy)` returns
`(cos r * (x - cx) - sin r * (y - cy) + cx, sin r * (x - cx) + cos r * (y - cy) + cy)`
with `r = angle * π / 180`, and rotation is counterclockwise:
`rotate(1, 0, 90, 0, 0)` is within `1e-12` of `(0, 1)`,
`rotate(1, 0, 180, 0, 0)` within `1e-12` of `(-1, 0)`, and
`rotate(1, 0, -90, 0, 0)` within `1e-12` of `(0, -1)`. -/
theorem rotate_formula_and_ccw_direction :
    (∀ x y angle cx cy : ℝ,
        rotate x y angle cx cy =
          (Real.cos (angle * Real.pi / 180) * (x - cx) -
              Real.sin (angle * Real.pi / 180) * (y - cy) + cx,
            Real.sin (angle * Real.pi / 180) * (x - cx) +
              Real.cos (angle * Real.pi / 180) * (y - cy) + cy)) ∧
    |(rotate 1 0 90 0 0).1 - 0| ≤ 1e-12 ∧ |(rotate 1 0 90 0 0).2 - 1| ≤ 1e-12 ∧
    |(rotate 1 0 180 0 0).1 - (-1)| ≤ 1e-12 ∧ |(rotate 1 0 180 0 0).2 - 0| ≤ 1e-12 ∧
    |(rotate 1 0 (-90) 0 0).1 - 0| ≤ 1e-12 ∧ |(rotate 1 0 (-90) 0 0).2 - (-1)| ≤ 1e-12 := by
  refine ⟨fun x y angle cx cy => rfl, ?_, ?_, ?_, ?_, ?_, ?_⟩
  · rw [rotate_ninety]; norm_num
  · rw [rotate_ninety]; norm_num
  · rw [rotate_half_turn]; norm_num
  · rw [rotate_half_turn]; norm_num
  · rw [rotate_neg_ninety]; norm_num
  · rw [rotate_neg_ninety]; norm_num

/-- C3: `parsePoint` returns an `Option` (absence signal, never an
exception); it succeeds exactly when, after stripping the outer
characters and splitting the interior on commas, there are exactly two
trimmed parts each parseable as a number, and on the spec's examples:
`"(50,96)"` and `"( 50 , 96 )"` give `(50, 96)`, while `"(50,abc)"`,
`"(50)"`, `"(50,96,10)"` and `"invalid"` give `none`. -/
theorem parsePoint_success_iff_and_examples :
    (∀ s : String, (parsePoint s).isSome = true ↔
        ∃ p1 p2, (splitComma (jsTrim (slice1m1 s.data))).map jsTrim = [p1, p2] ∧
          (parseFloatL p1).isNaN = false ∧ (parseFloatL p2).isNaN = false) ∧
    parsePoint "(50,96)" = some (JsFloat.fin 50, JsFloat.fin 96) ∧
    parsePoint "( 50 , 96 )" = some (JsFloat.fin 50, JsFloat.fin 96) ∧
    parsePoint "(50,abc)" = none ∧
    parsePoint "(50)" = none ∧
    parsePoint "(50,96,10)" = none ∧
    parsePoint "invalid" = none := by
  refine ⟨?_, by decide, by decide, by decide, by decide, by decide, by decide⟩
  intro s
  show (parsePointL s.data).isSome = true ↔ _
  rcases hm : (splitComma (jsTrim (slice1m1 s.data))).map jsTrim with _ | ⟨p1, _ | ⟨p2, _ | ⟨p3, r⟩⟩⟩
  · rw [parsePointL_not_two s.data (by rw [hm]; simp)]
    refine iff_of_false (by simp) ?_
    rintro ⟨q1, q2, hq, -, -⟩
    simp at hq
  · rw [parsePointL_not_two s.data (by rw [hm]; simp)]
    refine iff_of_false (by simp) ?_
    rintro ⟨q1, q2, hq, -, -⟩
    simp at hq
  · rw [parsePointL_two s.data p1 p2 hm]
    by_cases hx : ((parseFloatL p1).isNaN || (parseFloatL p2).isNaN) = true
    · rw [if_pos hx]
      refine iff_of_false (by simp) ?_
      rintro ⟨q1, q2, hq, h1, h2⟩
      obtain ⟨rfl, rfl⟩ : p1 = q1 ∧ p2 = q2 := by simpa using hq
      simp [h1, h2] at hx
    · rw [if_neg hx]
      have hx' : (parseFloatL p1).isNaN = false ∧ (parseFloatL p2).isNaN = false := by
        simpa only [Bool.or_eq_true, not_or, Bool.not_eq_true] using hx
      exact iff_of_true (by simp) ⟨p1, p2, rfl, hx'.1, hx'.2⟩
  · rw [parsePointL_not_two s.data (by rw [hm]; simp)]
    refine iff_of_false (by simp) ?_
    rintro ⟨q1, q2, hq, -, -⟩
    simp at hq

/-- C4: whenever `parsePoints` collects zero points, it throws an error
whose message is exactly
`Invalid points format: <T>. Use "(x,y)" or "[(x,y) (x,y)]".` where
`<T>` is the whitespace-trimmed original input (brackets included). -/
theorem parsePoints_exact_error_message (s : String)
    (h : collectPointsL (jsTrim s.data) = []) :
    parsePoints s = Except.error
      ("Invalid points format: " ++ String.mk (jsTrim s.data) ++
        ". Use \"(x,y)\" or \"[(x,y) (x,y)]\".") := by
  unfold parsePoints
  rw [h]
  rfl

/-- Witness for C4: on the empty string, nothing is collected and the
message embeds an empty placeholder. -/
theorem parsePoints_exact_error_message_witness :
    collectPointsL (jsTrim "".data) = [] ∧
    parsePoints "" =
      Except.error "Invalid points format: . Use \"(x,y)\" or \"[(x,y) (x,y)]\"." :=
  ⟨by decide, by
    have h := parsePoints_exact_error_message "" (by decide)
    exact h.trans (congrArg Except.error (by decide))⟩

/-- C5: within a bracketed set, candidates rejected by the inner parser
are silently skipped and non-matching text is ignored: as long as at
least one candidate parses, `parsePoints` returns exactly the parsed
candidates and no error. -/
theorem parsePoints_bracket_skips_failures (s : String)
    (hb : startsWithChar (jsTrim s.data) '[' = true)
    (hne : (scanPoints (jsTrim (slice1m1 (jsTrim s.data)))).filterMap parsePointL ≠ []) :
    parsePoints s =
      Except.ok ((scanPoints (jsTrim (slice1m1 (jsTrim s.data)))).filterMap parsePointL) := by
  unfold parsePoints collectPointsL
  rw [if_pos hb]
  rcases hl : (scanPoints (jsTrim (slice1m1 (jsTrim s.data)))).filterMap parsePointL with _ | ⟨a, l⟩
  · exact absurd hl hne
  · rfl

/-- Witness for C5: `parsePoints "[ (50,96) invalid ]"` returns exactly
`[(50,96)]` without error. -/
theorem parsePoints_bracket_skips_failures_witness :
    startsWithChar (jsTrim "[ (50,96) invalid ]".data) '[' = true ∧
    parsePoints "[ (50,96) invalid ]" = Except.ok [(JsFloat.fin 50, JsFloat.fin 96)] :=
  ⟨by decide, by
    have h := parsePoints_bracket_skips_failures "[ (50,96) invalid ]" (by decide) (by decide)
    exact h.trans (congrArg Except.ok (by decide))⟩


/-- Counterexample to C6 as stated: the trimmed form of `" (1,2)"` begins
with `(` and is accepted by the inner point parser, yet `parseCenter`
throws, because the code tests `startsWith("(")` on the original,
untrimmed string. -/
theorem parseCenter_trim_claim_counterexample :
    jsTrim " (1,2)".data = "(1,2)".data ∧
    parsePoint "(1,2)" = some (JsFloat.fin 1, JsFloat.fin 2) ∧
    parseCenter " (1,2)" =
      Except.error "Invalid center format:  (1,2). Use \"(cx,cy)\" or pass separate cx cy." :=
  ⟨by decide, by decide, by decide⟩

/-- C6 (amended): `parseCenter` succeeds exactly on strings that, as
received (untrimmed), begin with `(` and are accepted by the inner point
parser; every other input throws an error whose message is exactly
`Invalid center format: <S>. Use "(cx,cy)" or pass separate cx cy.`
with `<S>` the original input as received. -/
theorem parseCenter_untrimmed_characterization (s : String) :
    (∀ p, startsWithChar s.data '(' = true → parsePointL s.data = some p →
        parseCenter s = Except.ok p) ∧
    (startsWithChar s.data '(' = false ∨ parsePointL s.data = none →
        parseCenter s = Except.error
          ("Invalid center format: " ++ s ++ ". Use \"(cx,cy)\" or pass separate cx cy.")) := by
  constructor
  · intro p hb hp
    unfold parseCenter
    rw [if_pos hb, hp]
  · intro h
    unfold parseCenter
    rcases h with h | h
    · rw [if_neg (by simp [h])]
    · by_cases hb : startsWithChar s.data '(' = true
      · rw [if_pos hb, h]
      · rw [if_neg hb]

/-- Witness for the amended C6: both branches at concrete inputs. -/
theorem parseCenter_untrimmed_characterization_witness :
    parseCenter "(256,256)" = Except.ok (JsFloat.fin 256, JsFloat.fin 256) ∧
    parseCenter "invalid" =
      Except.error "Invalid center format: invalid. Use \"(cx,cy)\" or pass separate cx cy." :=
  ⟨(parseCenter_untrimmed_characterization "(256,256)").1 (JsFloat.fin 256, JsFloat.fin 256)
      (by decide) (by decide),
    ((parseCenter_untrimmed_characterization "invalid").2 (Or.inl (by decide))).trans
      (congrArg Except.error (by decide))⟩

/-- Counterexample to C7 as stated: `parsePoint "(Infinity,0)"` returns a
point whose first coordinate is positive infinity — only `NaN` is
rejected, not the infinities that `parseFloat` accepts. -/
theorem parsePoint_admits_infinity :
    parsePoint "(Infinity,0)" = some (JsFloat.inf false, JsFloat.fin 0) ∧
    (JsFloat.inf false).isFinite = false :=
  ⟨by decide, by decide⟩

/-- C7 (amended): every point returned by `parsePoint` — and hence every
point in a list returned by `parsePoints` or by `parseCenter` — has
coordinates that are never `NaN` (though they may be `±Infinity`). -/
theorem parsed_coordinates_never_nan :
    (∀ s p, parsePoint s = some p → p.1.isNaN = false ∧ p.2.isNaN = false) ∧
    (∀ s ps, parsePoints s = Except.ok ps →
      ∀ p ∈ ps, p.1.isNaN = false ∧ p.2.isNaN = false) ∧
    (∀ s p, parseCenter s = Except.ok p → p.1.isNaN = false ∧ p.2.isNaN = false) := by
  refine ⟨fun s p h => parsePointL_not_nan s.data p h, ?_,
    fun s p h => parsePointL_not_nan s.data p (parseCenter_ok_eq s p h)⟩
  intro s ps hps p hp
  obtain ⟨heq, -⟩ := parsePoints_ok_eq s ps hps
  rw [heq] at hp
  obtain ⟨l, hl⟩ := collectPointsL_mem _ p hp
  exact parsePointL_not_nan l p hl

/-- Witness for the amended C7 at a parsed point. -/
theorem parsed_coordinates_never_nan_witness :
    (JsFloat.fin 50).isNaN = false ∧ (JsFloat.fin 96).isNaN = false :=
  parsed_coordinates_never_nan.1 "(50,96)" (JsFloat.fin 50, JsFloat.fin 96) (by decide)

/-- C8: `parsePoints` either throws or returns a non-empty list, and on
bracketed input the list is exactly the successfully parsed
parenthesized candidates in left-to-right scan order (duplicates
preserved). -/
theorem parsePoints_nonempty_and_ordered :
    ∀ s ps, parsePoints s = Except.ok ps →
      ps ≠ [] ∧
      (startsWithChar (jsTrim s.data) '[' = true →
        ps = (scanPoints (jsTrim (slice1m1 (jsTrim s.data)))).filterMap parsePointL) := by
  intro s ps hps
  obtain ⟨heq, hne⟩ := parsePoints_ok_eq s ps hps
  refine ⟨hne, fun hb => ?_⟩
  rw [heq]
  unfold collectPointsL
  rw [if_pos hb]

/-- Witness for C8: the two-point set keeps both points in input order. -/
theorem parsePoints_nonempty_and_ordered_witness :
    parsePoints "[(50,96) (510,296)]" =
      Except.ok [(JsFloat.fin 50, JsFloat.fin 96), (JsFloat.fin 510, JsFloat.fin 296)] ∧
    ([(JsFloat.fin 50, JsFloat.fin 96), (JsFloat.fin 510, JsFloat.fin 296)] :
        List (JsFloat × JsFloat)) ≠ [] :=
  ⟨by decide,
    (parsePoints_nonempty_and_ordered "[(50,96) (510,296)]"
        [(JsFloat.fin 50, JsFloat.fin 96), (JsFloat.fin 510, JsFloat.fin 296)] (by decide)).1⟩

/-- C9: `parsePoint` removes the first and last character of its input
without checking that they are parentheses: `"x50,96y"` parses to
`(50, 96)` and `"50,96!"` parses to `(0, 96)` instead of failing. -/
theorem parsePoint_strips_first_last_unconditionally :
    parsePoint "x50,96y" = some (JsFloat.fin 50, JsFloat.fin 96) ∧
    parsePoint "50,96!" = some (JsFloat.fin 0, JsFloat.fin 96) :=
  ⟨by decide, by decide⟩

/-- C10: a bracketed input needs no closing `]`: the last character is
dropped unconditionally, so `"[(1,2) (3,4)"` succeeds with only
`[(1,2)]`, the final point silently lost to the truncation. -/
theorem parsePoints_accepts_missing_closing_bracket :
    parsePoints "[(1,2) (3,4)" = Except.ok [(JsFloat.fin 1, JsFloat.fin 2)] := by decide
